import Mathlib

/- Shallow embedding of the generation/repair orchestration pipeline of the
   ai-self-healing-qa repository (generate_test.js, debug_test.js, the OpenAI
   debug variant, and the unnamed Perplexity debug variant).  Strings are
   modelled as Lean strings, character scanning is done over List Char, and
   fallible operations return Except. -/

/- ------------------------------------------------------------------ -/
/- Character and list utilities used to model JavaScript regex checks. -/
/- ------------------------------------------------------------------ -/

/-- ASCII lower-casing of one character, modelling the case-insensitive
regex flag for the ASCII patterns that occur in the source. -/
def lcChar (c : Char) : Char :=
  if 65 ≤ c.toNat ∧ c.toNat ≤ 90 then Char.ofNat (c.toNat + 32) else c

/-- ASCII lower-casing of a character list. -/
def lcList (l : List Char) : List Char := l.map lcChar

/-- Does the second list start with the first list? -/
def startsWithL : List Char → List Char → Bool
  | [], _ => true
  | _ :: _, [] => false
  | p :: ps, c :: cs => if p = c then startsWithL ps cs else false

/-- Does the second list contain the first list as a contiguous segment? -/
def listContains (pat : List Char) : List Char → Bool
  | [] => pat.isEmpty
  | c :: cs => startsWithL pat (c :: cs) || listContains pat cs

/-- Is there a position where kw occurs, with pat occurring somewhere after
the end of that kw occurrence?  Models a regex of the shape kw.*pat inside
one line. -/
def kwThen (kw pat : List Char) : List Char → Bool
  | [] => false
  | c :: cs =>
    (startsWithL kw (c :: cs) && listContains pat ((c :: cs).drop kw.length))
      || kwThen kw pat cs

/-- Split a character list at newline characters, modelling the fact that a
JavaScript dot in a regex does not match a newline. -/
def splitLines : List Char → List (List Char)
  | [] => [[]]
  | c :: cs =>
    if c = '\n' then [] :: splitLines cs
    else
      match splitLines cs with
      | [] => [[c]]
      | l :: ls => (c :: l) :: ls

/- ------------------------------------------------------------------ -/
/- OutputValidator: validateGeneratedCode from generate_test.js.       -/
/- The JS function throws on an invalid candidate, which is modelled   -/
/- as Except.error carrying the thrown message.                        -/
/- ------------------------------------------------------------------ -/

/-- Model of the JS test (import|require).*playwright : some line has an
occurrence of import or require followed, later on that line, by the word
playwright. -/
def hasPlaywrightImport (code : String) : Bool :=
  (splitLines code.toList).any (fun line =>
    kwThen "import".toList "playwright".toList line
      || kwThen "require".toList "playwright".toList line)

/-- Model of the JS test (test|describe)\( : the code contains the text
test( or describe(. -/
def hasTestStructure (code : String) : Bool :=
  listContains "test(".toList code.toList
    || listContains "describe(".toList code.toList

/-- validateGeneratedCode from generate_test.js: checks the import pattern,
then the test-structure pattern, throwing (Except.error) on the first
failure and returning true otherwise. -/
def validateGeneratedCode (code : String) : Except String Bool :=
  if hasPlaywrightImport code = false then
    Except.error "Generated code does not include Playwright import/require"
  else if hasTestStructure code = false then
    Except.error "Generated code does not include test structure (test/describe)"
  else Except.ok true

/- ------------------------------------------------------------------ -/
/- ResponseNormalizer: extractCodeFromMarkdown from generate_test.js.  -/
/- ------------------------------------------------------------------ -/

/-- The backtick character, written by code point to keep source clean. -/
def backtickChar : Char := Char.ofNat 96

/-- The closing-brace character, written by code point. -/
def closingBrace : Char := Char.ofNat 125

/-- Three backticks: the markdown fence marker. -/
def fenceMarker : List Char := [backtickChar, backtickChar, backtickChar]

/-- After an opening fence marker, the regex (?:javascript|js)?\n accepts
exactly the prefixes javascript+newline, js+newline, or a bare newline;
returns how many characters that prefix consumes. -/
def fenceTagLen (s : List Char) : Option Nat :=
  if startsWithL ("javascript\n").toList s then some 11
  else if startsWithL ("js\n").toList s then some 3
  else if startsWithL ("\n").toList s then some 1
  else none

/-- Lazy scan for the closing fence: returns the interior up to the first
fence marker together with the remainder after that marker. -/
def takeUntilFence : List Char → Option (List Char × List Char)
  | [] => none
  | c :: cs =>
    if startsWithL fenceMarker (c :: cs) then some ([], (c :: cs).drop 3)
    else
      match takeUntilFence cs with
      | some p => some (c :: p.1, p.2)
      | none => none

/-- Try to match one fenced block at exactly this position: opening marker,
optional recognized language tag, newline, lazy interior, closing marker.
Returns the captured interior and the remainder after the closing marker. -/
def matchFenceAt (s : List Char) : Option (List Char × List Char) :=
  if startsWithL fenceMarker s then
    match fenceTagLen (s.drop 3) with
    | some k => takeUntilFence (s.drop (3 + k))
    | none => none
  else none

/-- Global regex scan: repeatedly find the leftmost fenced block and resume
after its closing marker, collecting the captured interiors.  The fuel
argument starts at the length of the list; every step consumes at least one
character, so the fuel never runs out before the input does. -/
def scanAux : Nat → List Char → List (List Char)
  | 0, _ => []
  | _ + 1, [] => []
  | fuel + 1, c :: cs =>
    match matchFenceAt (c :: cs) with
    | some p => p.1 :: scanAux fuel p.2
    | none => scanAux fuel cs

/-- All fenced-block interiors of a reply, in order of occurrence. -/
def scanBlocks (l : List Char) : List (List Char) := scanAux l.length l

/-- JavaScript whitespace for trim, restricted to the characters that occur
in the modelled data: space, tab, newline, carriage return. -/
def jsWs (c : Char) : Bool := c = ' ' || c = '\t' || c = '\n' || c = '\r'

/-- Model of the JS String.trim method over character lists. -/
def trimChars (l : List Char) : List Char :=
  ((l.dropWhile jsWs).reverse.dropWhile jsWs).reverse

/-- The JS reduce picking the largest block: keep the accumulator when it is
strictly longer, otherwise take the next block. -/
def pickLongest (m : List Char) (ms : List (List Char)) : List Char :=
  ms.foldl (fun a b => if a.length > b.length then a else b) m

/-- extractCodeFromMarkdown from generate_test.js: collect all fenced-block
interiors; if any exist return the largest one trimmed, otherwise return the
whole reply trimmed. -/
def extractCodeFromMarkdown (text : String) : String :=
  match scanBlocks text.toList with
  | [] => String.mk (trimChars text.toList)
  | m :: ms => String.mk (trimChars (pickLongest m ms))

/- ------------------------------------------------------------------ -/
/- ResponseNormalizer fallback: extractJavaScriptCode and              -/
/- cleanGeneratedCode from generate_test.js.                           -/
/- ------------------------------------------------------------------ -/

/-- Case-insensitive prefix test over character lists; the patterns given
to it are already lower case. -/
def lcStartsWith (pat s : List Char) : Bool := startsWithL pat (lcList s)

/-- The current line starting at this position: characters up to the next
newline, since a JavaScript regex dot does not cross a newline. -/
def lineOf (s : List Char) : List Char := s.takeWhile (fun c => !(c = '\n'))

/-- Anchor pattern const.*require.*playwright (case-insensitive) matching at
this exact position. -/
def patConstRequire (s : List Char) : Bool :=
  lcStartsWith "const".toList s
    && kwThen "require".toList "playwright".toList (lcList (lineOf (s.drop 5)))

/-- Anchor pattern import.*from.*playwright (case-insensitive) matching at
this exact position. -/
def patImportFrom (s : List Char) : Bool :=
  lcStartsWith "import".toList s
    && kwThen "from".toList "playwright".toList (lcList (lineOf (s.drop 6)))

/-- Anchor pattern test\( matching at this exact position. -/
def patTestCall (s : List Char) : Bool := startsWithL "test(".toList s

/-- Anchor pattern describe\( matching at this exact position. -/
def patDescribeCall (s : List Char) : Bool := startsWithL "describe(".toList s

/-- Index of the leftmost position at which the predicate matches, modelling
the index property of a JavaScript regex match. -/
def findIdx (pred : List Char → Bool) : List Char → Option Nat
  | [] => none
  | c :: cs =>
    if pred (c :: cs) then some 0
    else (findIdx pred cs).map (fun i => i + 1)

/-- The anchor index chosen by extractJavaScriptCode: the four patterns are
tried in a fixed priority order and the first pattern with any match wins,
yielding the index of its leftmost match. -/
def anchorIndex (s : List Char) : Option Nat :=
  match findIdx patConstRequire s with
  | some i => some i
  | none =>
    match findIdx patImportFrom s with
    | some i => some i
    | none =>
      match findIdx patTestCall s with
      | some i => some i
      | none => findIdx patDescribeCall s

/-- Scan the first line for a colon immediately followed by a newline and
drop everything through that newline; fails if a newline arrives first,
modelling the lazy dot-star of the Here-is prefix regex. -/
def dropThroughColonNl : List Char → Option (List Char)
  | [] => none
  | c :: cs =>
    if c = ':' then
      match cs with
      | '\n' :: rest => some rest
      | _ => dropThroughColonNl cs
    else if c = '\n' then none
    else dropThroughColonNl cs

/-- The lower-case characters of the alternative Here-apostrophe-s. -/
def hereAposPat : List Char := ['h', 'e', 'r', 'e', Char.ofNat 39, 's']

/-- Model of the replace of regex caret (Here is|Here apostrophe s).*?:\n
(case-insensitive) by the empty string: at the very start only, strip the
matched prefix through the first colon-newline of the first line. -/
def stripHereIs (l : List Char) : List Char :=
  if lcStartsWith "here is".toList l then
    match dropThroughColonNl (l.drop 7) with
    | some rest => rest
    | none => l
  else if lcStartsWith hereAposPat l then
    match dropThroughColonNl (l.drop 6) with
    | some rest => rest
    | none => l
  else l

/-- Model of lastIndexOf of the closing brace followed by substring: keep
everything up to and including the last closing brace, or the whole list
when no closing brace occurs. -/
def takeToLastBrace (s : List Char) : List Char :=
  match s.reverse.dropWhile (fun c => !(c = closingBrace)) with
  | [] => s
  | c :: cs => (c :: cs).reverse

/-- cleanGeneratedCode from generate_test.js: trim, strip a leading Here-is
explanation line, cut after the last closing brace, trim again. -/
def cleanGeneratedCode (code : String) : String :=
  String.mk (trimChars (takeToLastBrace (stripHereIs (trimChars code.toList))))

/-- extractJavaScriptCode from generate_test.js: first the fenced-block
regex without the global flag (leftmost block wins); otherwise the anchor
pattern scan; otherwise clean the whole reply. -/
def extractJavaScriptCode (response : String) : String :=
  match (scanBlocks response.toList).head? with
  | some interior => String.mk (trimChars interior)
  | none =>
    match anchorIndex response.toList with
    | some i => cleanGeneratedCode (String.mk (response.toList.drop i))
    | none => cleanGeneratedCode response

/- ------------------------------------------------------------------ -/
/- ProviderClient error taxonomy: the catch branch shared by           -/
/- generatePlaywrightCode, callPerplexity and callPerplexityAPI.       -/
/- ------------------------------------------------------------------ -/

/-- The error-message mapping applied to an HTTP error response status in
generate_test.js (identical in the two Perplexity debug variants up to the
shared wording): 401 and 403 map to the authentication message, 429 to the
rate-limit message, exactly 500 to the server-error message, and everything
else to the generic message carrying the backend text. -/
def mapApiError (status : Nat) (backendMsg : String) : String :=
  if status = 401 ∨ status = 403 then
    "Perplexity API authentication failed. Check your API key."
  else if status = 429 then
    "Perplexity API rate limit exceeded. Please try again later."
  else if status = 500 then
    "Perplexity API server error. Please try again later."
  else "Perplexity API error: " ++ backendMsg

/- ------------------------------------------------------------------ -/
/- Credentials: the Perplexity fallback key and the OpenAI variant.    -/
/- ------------------------------------------------------------------ -/

/-- The hardcoded fallback key baked into generate_test.js, debug_test.js
and the unnamed Perplexity debug variant. -/
def perplexityFallbackKey : String :=
  "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"

/-- The Perplexity chat-completions endpoint. -/
def perplexityApiUrl : String := "https://api.perplexity.ai/chat/completions"

/-- Model of process.env.PERPLEXITY_API_KEY or-else fallback: an unset or
empty environment variable is falsy in JavaScript, so the hardcoded key is
substituted. -/
def resolvePerplexityKey (env : Option String) : String :=
  match env with
  | none => perplexityFallbackKey
  | some k => if k = "" then perplexityFallbackKey else k

/-- The startup guard of the Perplexity scripts: exit early exactly when the
resolved key is falsy, modelled as the empty string. -/
def perplexityStartupExits (env : Option String) : Bool :=
  resolvePerplexityKey env = ""

/-- The outbound HTTP request envelope observed at the provider boundary. -/
structure ApiRequest where
  url : String
  bearerKey : String
  body : String
deriving DecidableEq

/-- The request issued by callPerplexity: no credential check happens in
that function, the resolved key is sent as the bearer token. -/
def callPerplexityRequest (env : Option String) (prompt : String) : ApiRequest :=
  ApiRequest.mk perplexityApiUrl (resolvePerplexityKey env) prompt

/-- The placeholder value of the OpenAI debug variant. -/
def openaiPlaceholder : String := "YOUR_OPENAI_API_KEY_HERE"

/-- Model of process.env.OPENAI_API_KEY or-else placeholder. -/
def resolveOpenaiKey (env : Option String) : String :=
  match env with
  | none => openaiPlaceholder
  | some k => if k = "" then openaiPlaceholder else k

/-- callOpenAI from the OpenAI debug variant: rejects a falsy or placeholder
key before building the fetch request. -/
def callOpenAI (apiKey : String) (body : String) : Except String ApiRequest :=
  if apiKey = "" ∨ apiKey = openaiPlaceholder then
    Except.error "OPENAI_API_KEY is missing. Set env var or edit placeholder."
  else Except.ok (ApiRequest.mk "https://api.openai.com/v1/chat/completions" apiKey body)

/- ------------------------------------------------------------------ -/
/- CLI argument parsing: parseArgs from debug_test.js.                 -/
/- ------------------------------------------------------------------ -/

/-- The record built by parseArgs; fields that stay undefined in the JS
object are modelled as none or false. -/
structure Args where
  backup : Bool
  testPath : Option String
  logPath : Option String
  dryRun : Bool
  help : Bool
deriving DecidableEq

/-- The initial JS object: backup defaults to true, nothing else set. -/
def initialArgs : Args := Args.mk true none none false false

/-- The argument loop of parseArgs from debug_test.js: the option name
--test and --log each consume the following vector element as their value
(yielding undefined when the vector ends), the backup toggles overwrite the
current value, unknown arguments only warn. -/
def parseArgsAux : List String → Args → Args
  | [], acc => acc
  | a :: rest, acc =>
    if a = "--test" then
      match rest with
      | [] => Args.mk acc.backup none acc.logPath acc.dryRun acc.help
      | v :: rest2 => parseArgsAux rest2 (Args.mk acc.backup (some v) acc.logPath acc.dryRun acc.help)
    else if a = "--log" then
      match rest with
      | [] => Args.mk acc.backup acc.testPath none acc.dryRun acc.help
      | v :: rest2 => parseArgsAux rest2 (Args.mk acc.backup acc.testPath (some v) acc.dryRun acc.help)
    else if a = "--backup" then
      parseArgsAux rest (Args.mk true acc.testPath acc.logPath acc.dryRun acc.help)
    else if a = "--no-backup" then
      parseArgsAux rest (Args.mk false acc.testPath acc.logPath acc.dryRun acc.help)
    else if a = "--dry-run" then
      parseArgsAux rest (Args.mk acc.backup acc.testPath acc.logPath true acc.help)
    else if a = "-h" ∨ a = "--help" then
      parseArgsAux rest (Args.mk acc.backup acc.testPath acc.logPath acc.dryRun true)
    else parseArgsAux rest acc

/-- parseArgs from debug_test.js: the loop starts at index 2 of the process
argument vector. -/
def parseArgs (argv : List String) : Args := parseArgsAux (argv.drop 2) initialArgs

/-- The value carried by the last occurrence of a backup toggle in a token
list, following the words of the claim. -/
def lastBackupFlag : List String → Option Bool
  | [] => none
  | a :: rest =>
    match lastBackupFlag rest with
    | some b => some b
    | none =>
      if a = "--backup" then some true
      else if a = "--no-backup" then some false
      else none

/-- Modelled from the claim words: backup is true by default and otherwise
equals the value set by the last occurrence of a backup toggle among the
tokens after the first two vector elements. -/
def claimBackupSpec (argv : List String) : Bool :=
  (lastBackupFlag (argv.drop 2)).getD true

/- ------------------------------------------------------------------ -/
/- OutputSink and the pipeline flows, as filesystem event traces.      -/
/- ------------------------------------------------------------------ -/

/-- Primitive filesystem mutations visible in the flows: the timestamped
backup copy and the target overwrite. -/
inductive FileEv where
  | copyEv : String → String → FileEv
  | writeEv : String → String → FileEv
deriving DecidableEq

/-- Recognize a target-overwriting event. -/
def isWriteEv : FileEv → Bool
  | FileEv.writeEv _ _ => true
  | FileEv.copyEv _ _ => false

/-- A flat filesystem: the first binding of a path wins. -/
def fsRead (fs : List (String × String)) (p : String) : Option String :=
  match fs.find? (fun e => e.1 = p) with
  | some e => some e.2
  | none => none

/-- Overwrite a path by shadowing any previous binding. -/
def fsWrite (fs : List (String × String)) (p c : String) : List (String × String) :=
  (p, c) :: fs

/-- Effect of one filesystem event. -/
def applyEv (fs : List (String × String)) : FileEv → List (String × String)
  | FileEv.copyEv src dst =>
    match fsRead fs src with
    | some c => fsWrite fs dst c
    | none => fs
  | FileEv.writeEv p c => fsWrite fs p c

/-- Effect of an event trace, first event first. -/
def runEvents (fs : List (String × String)) (evs : List FileEv) : List (String × String) :=
  evs.foldl applyEv fs

/-- generateFix from debug_test.js (identical control flow in the OpenAI
variant): check readability of both inputs, obtain the corrected content
from the provider, and then either dry-run (no events), or back up first
and overwrite, a failing backup copy aborting before the overwrite.  The
result pairs the emitted event trace with the JS return or thrown error. -/
def generateFix (readOk : Bool) (fixed : Except String String)
    (backup dryRun copyOk : Bool) (testPath backupPath : String) :
    List FileEv × Except String Bool :=
  if readOk = false then ([], Except.error "File not readable")
  else
    match fixed with
    | Except.error e => ([], Except.error e)
    | Except.ok content =>
      if dryRun then ([], Except.ok false)
      else if backup then
        if copyOk then
          ([FileEv.copyEv testPath backupPath, FileEv.writeEv testPath content],
            Except.ok true)
        else ([], Except.error "Backup copy failed")
      else ([FileEv.writeEv testPath content], Except.ok true)

/-- generateTest from generate_test.js: read the input description, obtain
the provider reply, normalize it with extractCodeFromMarkdown, and write the
result to the output file; no validation step occurs on this path. -/
def generateTest (readResult providerReply : Except String String)
    (outputFile : String) : List FileEv × Except String Unit :=
  match readResult with
  | Except.error e => ([], Except.error e)
  | Except.ok _ =>
    match providerReply with
    | Except.error e => ([], Except.error e)
    | Except.ok reply =>
      ([FileEv.writeEv outputFile (extractCodeFromMarkdown reply)], Except.ok ())

/- ------------------------------------------------------------------ -/
/- PromptBuilder and ProviderClient of generate_test.js.               -/
/- ------------------------------------------------------------------ -/

/-- The generation prompt text before the embedded task input. -/
def generationPromptHead : String :=
  "You are a Playwright test automation expert. Convert the following test description into a complete Playwright test file.\n\nRequirements:\n- Use modern Playwright syntax with async/await\n- Include proper test structure with describe/test blocks\n- Add meaningful assertions\n- Use best practices for selectors\n- Include comments for clarity\n\nTest Description:\n"

/-- The generation prompt text after the embedded task input. -/
def generationPromptTail : String :=
  "\n\nProvide ONLY the complete JavaScript test code, no explanations."

/-- The prompt of generatePlaywrightCode: the task input is embedded
verbatim by template interpolation, with no size check anywhere. -/
def generationPrompt (testInput : String) : String :=
  generationPromptHead ++ testInput ++ generationPromptTail

/-- generatePlaywrightCode from generate_test.js, with the network modelled
as a function from the request prompt to either the reply text or an HTTP
status paired with the backend message: on success the reply is normalized,
on failure the status is mapped through the shared error wording. -/
def generatePlaywrightCode (testInput : String)
    (net : String → Except (Nat × String) String) : Except String String :=
  match net (generationPrompt testInput) with
  | Except.ok reply => Except.ok (extractCodeFromMarkdown reply)
  | Except.error se => Except.error (mapApiError se.1 se.2)

/- ------------------------------------------------------------------ -/
/- RetryController: generatePlaywrightCodeWithRetry.                   -/
/- ------------------------------------------------------------------ -/

/-- One attempt of the retry loop: call the provider, then validate; both a
provider error and a validation error make the attempt fail with the
corresponding message. -/
def attemptStep (provider : Nat → Except String String) (attempt : Nat) :
    Except String String :=
  match provider attempt with
  | Except.error e => Except.error e
  | Except.ok code =>
    match validateGeneratedCode code with
    | Except.error e => Except.error e
    | Except.ok _ => Except.ok code

/-- The terminal message thrown after exhausting all retries; with zero
configured attempts the JS code dereferences an undefined lastError, which
surfaces as a TypeError. -/
def retryFailureMessage (maxRetries : Nat) (lastErr : Option String) : String :=
  match lastErr with
  | some m =>
    "Failed to generate valid code after " ++ toString maxRetries ++ " attempts: " ++ m
  | none => "TypeError: lastError is undefined"

/-- The retry loop of generatePlaywrightCodeWithRetry, driven by the list of
attempt numbers still to run; returns the list of attempt numbers performed
in order together with the overall outcome. -/
def retryLoop (provider : Nat → Except String String) (maxRetries : Nat) :
    List Nat → Option String → List Nat × Except String String
  | [], lastErr => ([], Except.error (retryFailureMessage maxRetries lastErr))
  | attempt :: more, _ =>
    match attemptStep provider attempt with
    | Except.ok c => ([attempt], Except.ok c)
    | Except.error e =>
      let next := retryLoop provider maxRetries more (some e)
      (attempt :: next.1, next.2)

/-- generatePlaywrightCodeWithRetry from generate_test.js: attempts run from
1 to maxRetries, stopping at the first validated candidate. -/
def generatePlaywrightCodeWithRetry (provider : Nat → Except String String)
    (maxRetries : Nat) : List Nat × Except String String :=
  retryLoop provider maxRetries (List.range' 1 maxRetries) none

/- ------------------------------------------------------------------ -/
/- Helper lemmas.                                                      -/
/- ------------------------------------------------------------------ -/

theorem startsWithL_append_self (pat rest : List Char) :
    startsWithL pat (pat ++ rest) = true := by
  induction pat with
  | nil => rfl
  | cons p ps ih => simp [startsWithL, ih]

theorem listContains_append (pat a b : List Char) :
    listContains pat (a ++ pat ++ b) = true := by
  induction a with
  | nil =>
    cases pat with
    | nil =>
      cases b with
      | nil => rfl
      | cons c cs => simp [listContains, startsWithL]
    | cons p ps =>
      simp only [List.nil_append, listContains, List.cons_append, Bool.or_eq_true]
      exact Or.inl (by simpa using startsWithL_append_self (p :: ps) b)
  | cons c cs ih =>
    simp only [listContains, List.cons_append, Bool.or_eq_true]
    exact Or.inr (by simpa using ih)

theorem toList_append (a b : String) : (a ++ b).toList = a.toList ++ b.toList := rfl

theorem pickLongest_mem (m : List Char) (ms : List (List Char)) :
    pickLongest m ms ∈ m :: ms := by
  induction ms generalizing m with
  | nil => simp [pickLongest]
  | cons b bs ih =>
    have h := ih (if m.length > b.length then m else b)
    simp only [pickLongest, List.foldl_cons]
    simp only [pickLongest] at h
    rcases List.mem_cons.mp h with h1 | h1
    · rw [h1]
      by_cases hc : m.length > b.length
      · rw [if_pos hc]; exact List.mem_cons_self _ _
      · rw [if_neg hc]; exact List.mem_cons_of_mem _ (List.mem_cons_self _ _)
    · exact List.mem_cons_of_mem _ (List.mem_cons_of_mem _ h1)

theorem pickLongest_le (m : List Char) (ms : List (List Char)) :
    ∀ x ∈ m :: ms, x.length ≤ (pickLongest m ms).length := by
  induction ms generalizing m with
  | nil =>
    intro x hx
    rw [List.mem_singleton] at hx
    rw [hx]
    simp [pickLongest]
  | cons b bs ih =>
    intro x hx
    have hstep : m.length ≤ (if m.length > b.length then m else b).length ∧
        b.length ≤ (if m.length > b.length then m else b).length := by
      by_cases hc : m.length > b.length
      · rw [if_pos hc]; exact ⟨Nat.le_refl _, Nat.le_of_lt hc⟩
      · rw [if_neg hc]; exact ⟨Nat.le_of_not_lt hc, Nat.le_refl _⟩
    have hpick : pickLongest m (b :: bs)
        = pickLongest (if m.length > b.length then m else b) bs := by
      simp [pickLongest]
    rw [hpick]
    rcases List.mem_cons.mp hx with h1 | h1
    · subst h1
      exact Nat.le_trans hstep.1 (ih _ _ (List.mem_cons_self _ _))
    · rcases List.mem_cons.mp h1 with h2 | h2
      · subst h2
        exact Nat.le_trans hstep.2 (ih _ _ (List.mem_cons_self _ _))
      · exact ih _ x (List.mem_cons_of_mem _ h2)

theorem findIdx_spec (pred : List Char → Bool) (l : List Char) (i : Nat)
    (h : findIdx pred l = some i) :
    pred (l.drop i) = true ∧ ∀ j, j < i → pred (l.drop j) = false := by
  induction l generalizing i with
  | nil => simp [findIdx] at h
  | cons c cs ih =>
    by_cases hp : pred (c :: cs) = true
    · simp [findIdx, hp] at h
      subst h
      exact ⟨hp, fun j hj => absurd hj (Nat.not_lt_zero j)⟩
    · have hp0 : pred (c :: cs) = false := by
        cases hq : pred (c :: cs)
        · rfl
        · exact absurd hq hp
      simp [findIdx, hp0] at h
      rcases h with ⟨i0, hi0, rfl⟩
      rcases ih i0 hi0 with ⟨h1, h2⟩
      refine ⟨by simpa using h1, ?_⟩
      intro j hj
      cases j with
      | zero => simpa using hp0
      | succ j0 => simpa using h2 j0 (Nat.lt_of_succ_lt_succ hj)

theorem dropWhile_brace (l : List Char) (h : closingBrace ∈ l) :
    ∃ t, l.dropWhile (fun c => !(c = closingBrace)) = closingBrace :: t := by
  induction l with
  | nil => simp at h
  | cons c cs ih =>
    by_cases hc : c = closingBrace
    · subst hc
      refine ⟨cs, ?_⟩
      simp [List.dropWhile]
    · have hmem : closingBrace ∈ cs := by
        rcases List.mem_cons.mp h with h1 | h1
        · exact absurd h1.symm hc
        · exact h1
      rcases ih hmem with ⟨t, ht⟩
      refine ⟨t, ?_⟩
      simp [List.dropWhile, hc, ht]

theorem dropWhile_all (l : List Char)
    (h : ∀ x ∈ l, (!(x = closingBrace) : Bool) = true) :
    l.dropWhile (fun c => !(c = closingBrace)) = [] := by
  induction l with
  | nil => rfl
  | cons c cs ih =>
    have hc := h c (List.mem_cons_self c cs)
    simp only [List.dropWhile, hc]
    exact ih (fun x hx => h x (List.mem_cons_of_mem c hx))

theorem takeToLastBrace_no_brace (l : List Char) (h : closingBrace ∉ l) :
    takeToLastBrace l = l := by
  have hrev : closingBrace ∉ l.reverse := fun hm => h (List.mem_reverse.mp hm)
  have hall : l.reverse.dropWhile (fun c => !(c = closingBrace)) = [] := by
    refine dropWhile_all l.reverse (fun x hx => ?_)
    simp only [Bool.not_eq_true', decide_eq_false_iff_not]
    intro hxe
    exact hrev (hxe ▸ hx)
  simp [takeToLastBrace, hall]

theorem takeToLastBrace_brace (l : List Char) (h : closingBrace ∈ l) :
    (∃ t, takeToLastBrace l = t ++ [closingBrace])
      ∧ (∃ rest, l = takeToLastBrace l ++ rest ∧ closingBrace ∉ rest) := by
  have hrev : closingBrace ∈ l.reverse := List.mem_reverse.mpr h
  rcases dropWhile_brace l.reverse hrev with ⟨t, ht⟩
  have hdecomp :
      l.reverse.takeWhile (fun c => !(c = closingBrace))
        ++ l.reverse.dropWhile (fun c => !(c = closingBrace)) = l.reverse :=
    List.takeWhile_append_dropWhile _ _
  have hval : takeToLastBrace l = (closingBrace :: t).reverse := by
    simp [takeToLastBrace, ht]
  constructor
  · exact ⟨t.reverse, by simp [hval]⟩
  · refine ⟨(l.reverse.takeWhile (fun c => !(c = closingBrace))).reverse, ?_, ?_⟩
    · rw [hval, ← List.reverse_append, ← ht, hdecomp, List.reverse_reverse]
    · intro hm
      have hmem := List.mem_reverse.mp hm
      have := List.mem_takeWhile_imp hmem
      simp at this

theorem fsRead_write_self (fs : List (String × String)) (p c : String) :
    fsRead (fsWrite fs p c) p = some c := by
  simp [fsRead, fsWrite, List.find?]

theorem fsRead_write_other (fs : List (String × String)) (p c q : String)
    (h : ¬ p = q) : fsRead (fsWrite fs p c) q = fsRead fs q := by
  simp [fsRead, fsWrite, List.find?, h]

theorem parseArgsAux_backup_stable :
    ∀ (n : Nat) (l : List String), l.length ≤ n → ∀ acc : Args,
      "--backup" ∉ l → "--no-backup" ∉ l →
      (parseArgsAux l acc).backup = acc.backup := by
  intro n
  induction n with
  | zero =>
    intro l hl acc _ _
    have : l = [] := List.eq_nil_of_length_eq_zero (Nat.le_zero.mp hl)
    subst this
    rfl
  | succ n ih =>
    intro l hl acc hb hnb
    cases l with
    | nil => rfl
    | cons a rest =>
      have hrest : rest.length ≤ n := Nat.le_of_succ_le_succ hl
      have hb2 : "--backup" ∉ rest := fun hm => hb (List.mem_cons_of_mem a hm)
      have hnb2 : "--no-backup" ∉ rest := fun hm => hnb (List.mem_cons_of_mem a hm)
      have hab : ¬ a = "--backup" := fun he => hb (he ▸ List.mem_cons_self a rest)
      have hanb : ¬ a = "--no-backup" := fun he => hnb (he ▸ List.mem_cons_self a rest)
      rw [parseArgsAux.eq_def]
      simp only []
      by_cases ht : a = "--test"
      · rw [if_pos ht]
        cases rest with
        | nil => rfl
        | cons v rest2 =>
          have h2 : rest2.length ≤ n :=
            Nat.le_of_succ_le (by simpa using hrest)
          have hb3 : "--backup" ∉ rest2 := fun hm => hb2 (List.mem_cons_of_mem v hm)
          have hnb3 : "--no-backup" ∉ rest2 := fun hm => hnb2 (List.mem_cons_of_mem v hm)
          exact ih rest2 h2 _ hb3 hnb3
      · rw [if_neg ht]
        by_cases hlg : a = "--log"
        · rw [if_pos hlg]
          cases rest with
          | nil => rfl
          | cons v rest2 =>
            have h2 : rest2.length ≤ n :=
              Nat.le_of_succ_le (by simpa using hrest)
            have hb3 : "--backup" ∉ rest2 := fun hm => hb2 (List.mem_cons_of_mem v hm)
            have hnb3 : "--no-backup" ∉ rest2 := fun hm => hnb2 (List.mem_cons_of_mem v hm)
            exact ih rest2 h2 _ hb3 hnb3
        · rw [if_neg hlg, if_neg hab, if_neg hanb]
          by_cases hd : a = "--dry-run"
          · rw [if_pos hd]
            exact ih rest hrest _ hb2 hnb2
          · rw [if_neg hd]
            by_cases hh : a = "-h" ∨ a = "--help"
            · rw [if_pos hh]
              exact ih rest hrest _ hb2 hnb2
            · rw [if_neg hh]
              exact ih rest hrest _ hb2 hnb2

theorem parseArgsAux_backup_last :
    ∀ (l : List String) (acc : Args), "--test" ∉ l → "--log" ∉ l →
      (parseArgsAux l acc).backup = (lastBackupFlag l).getD acc.backup := by
  intro l
  induction l with
  | nil => intro acc _ _; rfl
  | cons a rest ih =>
    intro acc hT hL
    have hT2 : "--test" ∉ rest := fun hm => hT (List.mem_cons_of_mem a hm)
    have hL2 : "--log" ∉ rest := fun hm => hL (List.mem_cons_of_mem a hm)
    have haT : ¬ a = "--test" := fun he => hT (he ▸ List.mem_cons_self a rest)
    have haL : ¬ a = "--log" := fun he => hL (he ▸ List.mem_cons_self a rest)
    rw [parseArgsAux.eq_def]
    simp only [lastBackupFlag]
    rw [if_neg haT, if_neg haL]
    by_cases hb : a = "--backup"
    · rw [if_pos hb, ih _ hT2 hL2]
      rw [if_pos hb]
      cases hlf : lastBackupFlag rest with
      | none => simp [hlf]
      | some b => simp [hlf]
    · rw [if_neg hb]
      by_cases hnb : a = "--no-backup"
      · rw [if_pos hnb, ih _ hT2 hL2]
        rw [if_neg hb, if_pos hnb]
        cases hlf : lastBackupFlag rest with
        | none => simp [hlf]
        | some b => simp [hlf]
      · rw [if_neg hnb]
        have hrhs : (match lastBackupFlag rest with
            | some b => some b
            | none =>
              if a = "--backup" then some true
              else if a = "--no-backup" then some false
              else none) = lastBackupFlag rest := by
          rw [if_neg hb, if_neg hnb]
          cases lastBackupFlag rest with
          | none => rfl
          | some b => rfl
        rw [hrhs]
        by_cases hd : a = "--dry-run"
        · rw [if_pos hd, ih _ hT2 hL2]
        · rw [if_neg hd]
          by_cases hh : a = "-h" ∨ a = "--help"
          · rw [if_pos hh, ih _ hT2 hL2]
          · rw [if_neg hh, ih _ hT2 hL2]

/- ------------------------------------------------------------------ -/
/- Claim theorems.                                                     -/
/- ------------------------------------------------------------------ -/

/-- Claim C1, amended (corrected): the target file is mutated at most once
per pipeline run, in both the generation flow and the repair flow; but
mutations are not gated on validation, see the counterexample theorem. -/
theorem C1_write_at_most_once
    (readResult providerReply : Except String String) (outputFile : String)
    (readOk : Bool) (fixed : Except String String) (backup dryRun copyOk : Bool)
    (testPath backupPath : String) :
    (generateTest readResult providerReply outputFile).1.countP isWriteEv ≤ 1
    ∧ (generateFix readOk fixed backup dryRun copyOk testPath backupPath).1.countP isWriteEv ≤ 1 := by
  constructor
  · cases readResult <;> cases providerReply <;>
      simp [generateTest, List.countP_cons, List.countP_nil, isWriteEv]
  · cases readOk <;> cases fixed <;> cases backup <;> cases dryRun <;> cases copyOk <;>
      simp [generateFix, List.countP_cons, List.countP_nil, isWriteEv]

/-- Counterexample to claim C1 as stated: the generation flow writes the
normalized candidate to the target unconditionally; here the provider reply
is prose that fails validateGeneratedCode, yet it is written.  No
configuration flag exists that bypasses validation; validation is simply
absent from the write path. -/
theorem C1_unvalidated_write :
    generateTest (Except.ok "desc") (Except.ok "Sorry, I cannot help.") "login.spec.js"
      = ([FileEv.writeEv "login.spec.js" "Sorry, I cannot help."], Except.ok ())
    ∧ validateGeneratedCode "Sorry, I cannot help."
      = Except.error "Generated code does not include Playwright import/require" :=
  ⟨rfl, rfl⟩

/-- Claim C2, amended (corrected): validateGeneratedCode returns true
exactly when both structural patterns are present; when the automation
library import is missing it throws (modelled as Except.error) an error
whose message names the missing Playwright import/require, rather than
returning a valid-false result; when only the test structure is missing it
throws the test-structure message. -/
theorem C2_validator_amended (code : String) :
    (validateGeneratedCode code = Except.ok true ↔
      (hasPlaywrightImport code = true ∧ hasTestStructure code = true))
    ∧ (hasPlaywrightImport code = false →
        validateGeneratedCode code
          = Except.error "Generated code does not include Playwright import/require")
    ∧ (hasPlaywrightImport code = true → hasTestStructure code = false →
        validateGeneratedCode code
          = Except.error "Generated code does not include test structure (test/describe)") := by
  cases h1 : hasPlaywrightImport code <;> cases h2 : hasTestStructure code <;>
    simp [validateGeneratedCode, h1, h2]

/-- Witness for C2 at a concrete candidate without an import. -/
theorem C2_validator_amended_inst :
    validateGeneratedCode ""
      = Except.error "Generated code does not include Playwright import/require" :=
  (C2_validator_amended "").2.1 (by decide)

/-- Counterexample to claim C2 as stated: the checker does not return a
ValidationResult value on an invalid candidate, it throws, modelled as an
Except.error rather than any returned ok value. -/
theorem C2_validator_throws :
    validateGeneratedCode "Use a click helper instead."
      = Except.error "Generated code does not include Playwright import/require"
    ∧ ∀ b : Bool, ¬ validateGeneratedCode "Use a click helper instead." = Except.ok b := by
  constructor
  · rfl
  · intro b h
    rw [show validateGeneratedCode "Use a click helper instead."
        = Except.error "Generated code does not include Playwright import/require" from rfl] at h
    exact Except.noConfusion h

/-- Claim C3 (code_bug): the Perplexity scripts substitute a hardcoded
fallback key for a missing or empty credential, so the startup guard that
is supposed to fail fast can never fire and the network request is issued
bearing the fallback key; the OpenAI debug variant, by contrast, does
reject a missing or placeholder key before its fetch, which is the
behaviour the claim and the scripts own comments describe. -/
theorem C3_credential_fallback (prompt : String) :
    (∀ env : Option String, perplexityStartupExits env = false)
    ∧ callPerplexityRequest none prompt
        = ApiRequest.mk perplexityApiUrl perplexityFallbackKey prompt
    ∧ callOpenAI (resolveOpenaiKey none) prompt
        = Except.error "OPENAI_API_KEY is missing. Set env var or edit placeholder." := by
  refine ⟨?_, rfl, rfl⟩
  intro env
  cases env with
  | none => decide
  | some k =>
    by_cases hk : k = ""
    · subst hk; decide
    · simp [perplexityStartupExits, resolvePerplexityKey, hk]

/-- Claim C4 (confirmed): with backup requested on an existing target, the
emitted trace is exactly backup copy followed by target overwrite; after
the copy alone the backup holds the pre-write original byte for byte while
the target is still unchanged; and whenever the backup copy fails the trace
is empty, so the target keeps its original content. -/
theorem C4_backup_before_write (fs : List (String × String))
    (testPath backupPath original content : String)
    (hread : fsRead fs testPath = some original)
    (hne : ¬ backupPath = testPath) :
    (generateFix true (Except.ok content) true false true testPath backupPath
      = ([FileEv.copyEv testPath backupPath, FileEv.writeEv testPath content],
          Except.ok true))
    ∧ fsRead (applyEv fs (FileEv.copyEv testPath backupPath)) backupPath = some original
    ∧ fsRead (applyEv fs (FileEv.copyEv testPath backupPath)) testPath = some original
    ∧ fsRead (runEvents fs [FileEv.copyEv testPath backupPath,
        FileEv.writeEv testPath content]) testPath = some content
    ∧ fsRead (runEvents fs [FileEv.copyEv testPath backupPath,
        FileEv.writeEv testPath content]) backupPath = some original
    ∧ (∀ (readOk : Bool) (fixed : Except String String) (dryRun : Bool),
        (generateFix readOk fixed true dryRun false testPath backupPath).1 = []
        ∧ fsRead (runEvents fs
            (generateFix readOk fixed true dryRun false testPath backupPath).1) testPath
          = some original) := by
  have htp : ¬ testPath = backupPath := fun he => hne he.symm
  refine ⟨rfl, ?_, ?_, ?_, ?_, ?_⟩
  · simp [applyEv, hread, fsRead_write_self]
  · simp only [applyEv, hread]
    rw [fsRead_write_other fs backupPath original testPath hne]
    exact hread
  · simp only [runEvents, List.foldl_cons, List.foldl_nil, applyEv, hread]
    exact fsRead_write_self _ _ _
  · simp only [runEvents, List.foldl_cons, List.foldl_nil, applyEv, hread]
    rw [fsRead_write_other _ testPath content backupPath htp]
    exact fsRead_write_self _ _ _
  · intro readOk fixed dryRun
    have hemp : (generateFix readOk fixed true dryRun false testPath backupPath).1 = [] := by
      cases readOk <;> cases fixed <;> cases dryRun <;> simp [generateFix]
    refine ⟨hemp, ?_⟩
    rw [hemp]
    exact hread

/-- Witness for C4 on a concrete one-file filesystem. -/
theorem C4_backup_before_write_inst :
    fsRead (runEvents [("t.js", "orig")]
      (generateFix true (Except.ok "fixed") true false true "t.js" "t.js.bak").1) "t.js.bak"
      = some "orig" := by
  have h := C4_backup_before_write [("t.js", "orig")] "t.js" "t.js.bak" "orig" "fixed"
    (by rfl) (by decide)
  rw [h.1]
  exact h.2.2.2.2.1

/-- Claim C5, amended (corrected): whenever the fence regex finds one or
more blocks (opened by three backticks with no tag or a javascript or js
tag, then a newline), extractCodeFromMarkdown returns the trimmed interior
of a block of maximal character count, and with exactly one block it
returns that block trimmed; blocks carrying any other language tag are not
recognized by the regex, see the counterexample theorem. -/
theorem C5_longest_block_amended (text : String) (m : List Char)
    (ms : List (List Char)) (h : scanBlocks text.toList = m :: ms) :
    extractCodeFromMarkdown text = String.mk (trimChars (pickLongest m ms))
    ∧ pickLongest m ms ∈ m :: ms
    ∧ (∀ b ∈ m :: ms, b.length ≤ (pickLongest m ms).length)
    ∧ (ms = [] → extractCodeFromMarkdown text = String.mk (trimChars m)) := by
  refine ⟨?_, pickLongest_mem m ms, pickLongest_le m ms, ?_⟩
  · simp only [extractCodeFromMarkdown]
    rw [h]
  · intro hms
    subst hms
    simp only [extractCodeFromMarkdown]
    rw [h]
    rfl

/-- Witness for C5: two fenced blocks of differing lengths, the longer
interior wins. -/
theorem C5_longest_block_inst :
    extractCodeFromMarkdown "x\n```js\nab\n```\ny\n```\nabcdef\n```" = "abcdef" := by
  have h := C5_longest_block_amended "x\n```js\nab\n```\ny\n```\nabcdef\n```"
    ("ab\n").toList [("abcdef\n").toList] (by decide)
  rw [h.1]
  decide

/-- Counterexample to claim C5 as stated: a reply whose only fenced block
carries the language tag python, which the claim (language tag optional)
covers; the regex recognizes no block there, so the whole reply including
the fence markers is returned instead of the block interior hi. -/
theorem C5_python_tag_not_recognized :
    scanBlocks ("```python\nhi\n```").toList = []
    ∧ extractCodeFromMarkdown "```python\nhi\n```" = "```python\nhi\n```"
    ∧ ¬ extractCodeFromMarkdown "```python\nhi\n```" = "hi" :=
  ⟨by decide, by decide, by decide⟩

/-- Claim C6, amended (corrected): on a reply without fenced blocks,
extractJavaScriptCode takes the suffix starting at the leftmost match of
the first anchor pattern, in the fixed priority order of const-require,
then import-from, test call, describe call, not necessarily the earliest
anchor occurrence in the text; that suffix is then trimmed, optionally stripped of
a leading Here-is line, and truncated at its last closing brace (the
discarded tail contains no closing brace; a braceless text is kept whole). -/
theorem C6_anchor_amended (response : String) (i : Nat)
    (h1 : scanBlocks response.toList = [])
    (h2 : anchorIndex response.toList = some i) :
    extractJavaScriptCode response
      = cleanGeneratedCode (String.mk (response.toList.drop i))
    ∧ (∀ l : List Char, closingBrace ∈ l →
        (∃ t, takeToLastBrace l = t ++ [closingBrace])
          ∧ ∃ rest, l = takeToLastBrace l ++ rest ∧ closingBrace ∉ rest)
    ∧ (∀ l : List Char, closingBrace ∉ l → takeToLastBrace l = l)
    ∧ (∀ (pred : List Char → Bool) (l : List Char) (j : Nat),
        findIdx pred l = some j →
        pred (l.drop j) = true ∧ ∀ k, k < j → pred (l.drop k) = false) := by
  refine ⟨?_, takeToLastBrace_brace, takeToLastBrace_no_brace, findIdx_spec⟩
  simp only [extractJavaScriptCode]
  rw [h1, h2]
  rfl

/-- Witness for C6 at a concrete fenceless reply anchored at index 0. -/
theorem C6_anchor_inst :
    extractJavaScriptCode "const pw = require(\x27playwright\x27);\ntest(1); \x7d tail"
      = cleanGeneratedCode "const pw = require(\x27playwright\x27);\ntest(1); \x7d tail" := by
  have h := C6_anchor_amended "const pw = require(\x27playwright\x27);\ntest(1); \x7d tail" 0
    (by decide) (by decide)
  simpa using h.1

/-- Counterexample to claim C6 as stated: the earliest anchor in the text
is the test call at index 0 and the text ends at its last closing brace, so
the claim demands the whole text back; but the const-require pattern is
tried first, so the code instead returns the later suffix starting at
const, discarding the leading test call. -/
theorem C6_anchor_priority :
    extractJavaScriptCode "test(a) \x7d\nconst x = require(\x27playwright\x27); \x7d"
      = "const x = require(\x27playwright\x27); \x7d"
    ∧ listContains ("test(").toList
        ("test(a) \x7d\nconst x = require(\x27playwright\x27); \x7d").toList = true
    ∧ ¬ extractJavaScriptCode "test(a) \x7d\nconst x = require(\x27playwright\x27); \x7d"
        = "test(a) \x7d\nconst x = require(\x27playwright\x27); \x7d" :=
  ⟨by decide, by decide, by decide⟩

/-- Claim C7 (confirmed): with three attempts configured, failures on
attempts one and two followed by a validated attempt three return the
attempt-three candidate with all three attempts performed; three failures
return the terminal message reporting the attempt count and the last
failure reason, again after performing exactly the three attempts. -/
theorem C7_retry_contract (provider : Nat → Except String String) (e1 e2 : String)
    (h1 : attemptStep provider 1 = Except.error e1)
    (h2 : attemptStep provider 2 = Except.error e2) :
    (∀ c, attemptStep provider 3 = Except.ok c →
      generatePlaywrightCodeWithRetry provider 3 = ([1, 2, 3], Except.ok c))
    ∧ (∀ e3, attemptStep provider 3 = Except.error e3 →
      generatePlaywrightCodeWithRetry provider 3
        = ([1, 2, 3], Except.error
            ("Failed to generate valid code after 3 attempts: " ++ e3))) := by
  have hrange : List.range' 1 3 = [1, 2, 3] := rfl
  constructor
  · intro c h3
    rw [generatePlaywrightCodeWithRetry, hrange]
    simp [retryLoop, h1, h2, h3]
  · intro e3 h3
    rw [generatePlaywrightCodeWithRetry, hrange]
    have hmsg : retryFailureMessage 3 (some e3)
        = "Failed to generate valid code after 3 attempts: " ++ e3 := rfl
    simp [retryLoop, h1, h2, h3, hmsg]

/-- Witness for C7 with a stub provider failing validation twice then
succeeding, and a stub provider failing on every attempt. -/
theorem C7_retry_contract_inst :
    generatePlaywrightCodeWithRetry
        (fun n => if n = 3
          then Except.ok "const t = require(\x27playwright\x27);\ntest(\x27a\x27, 1);"
          else Except.ok "prose") 3
      = ([1, 2, 3], Except.ok "const t = require(\x27playwright\x27);\ntest(\x27a\x27, 1);")
    ∧ generatePlaywrightCodeWithRetry (fun _ => Except.error "network down") 3
      = ([1, 2, 3], Except.error
          ("Failed to generate valid code after 3 attempts: " ++ "network down")) := by
  constructor
  · exact (C7_retry_contract
      (fun n => if n = 3
        then Except.ok "const t = require(\x27playwright\x27);\ntest(\x27a\x27, 1);"
        else Except.ok "prose")
      "Generated code does not include Playwright import/require"
      "Generated code does not include Playwright import/require"
      (by rfl) (by rfl)).1
      "const t = require(\x27playwright\x27);\ntest(\x27a\x27, 1);" (by rfl)
  · exact (C7_retry_contract (fun _ => Except.error "network down")
      "network down" "network down" (by rfl) (by rfl)).2 "network down" (by rfl)

/-- Claim C8, amended (corrected): statuses 401 and 403 map to the
authentication message, 429 to the rate-limit message, and exactly 500 to
the server-error message; every other status, including the remaining 5xx
statuses, maps to the generic message carrying the backend text, see the
counterexample theorem. -/
theorem C8_status_mapping_amended (status : Nat) (msg : String) :
    ((status = 401 ∨ status = 403) →
      mapApiError status msg = "Perplexity API authentication failed. Check your API key.")
    ∧ (status = 429 →
      mapApiError status msg = "Perplexity API rate limit exceeded. Please try again later.")
    ∧ (status = 500 →
      mapApiError status msg = "Perplexity API server error. Please try again later.")
    ∧ (500 < status → status ≤ 599 →
      mapApiError status msg = "Perplexity API error: " ++ msg) := by
  refine ⟨?_, ?_, ?_, ?_⟩
  · rintro (rfl | rfl) <;> rfl
  · rintro rfl; rfl
  · rintro rfl; rfl
  · intro hgt hle
    rw [mapApiError, if_neg (by omega), if_neg (by omega), if_neg (by omega)]

/-- Witness for C8 at the statuses named by the claim. -/
theorem C8_status_mapping_inst :
    mapApiError 401 "x" = "Perplexity API authentication failed. Check your API key."
    ∧ mapApiError 429 "x" = "Perplexity API rate limit exceeded. Please try again later."
    ∧ mapApiError 500 "x" = "Perplexity API server error. Please try again later." :=
  ⟨(C8_status_mapping_amended 401 "x").1 (Or.inl rfl),
    (C8_status_mapping_amended 429 "x").2.1 rfl,
    (C8_status_mapping_amended 500 "x").2.2.1 rfl⟩

/-- Counterexample to claim C8 as stated: status 502 is a 5xx status but is
mapped to the generic message carrying the raw backend text, not to the
server-error condition. -/
theorem C8_status_502_generic :
    mapApiError 502 "Bad Gateway" = "Perplexity API error: Bad Gateway"
    ∧ ¬ mapApiError 502 "Bad Gateway"
        = "Perplexity API server error. Please try again later." :=
  ⟨rfl, by decide⟩

/-- Claim C9, amended (corrected): the prompt builder imposes no size
ceiling and has no failure path at all: every task input, of any size, is
embedded verbatim in the generation prompt, and the outcome of the run is
entirely determined by the provider reply, never by an input-size check. -/
theorem C9_no_size_ceiling (input : String)
    (net : String → Except (Nat × String) String) :
    listContains input.toList (generationPrompt input).toList = true
    ∧ (∀ r, net (generationPrompt input) = Except.ok r →
        generatePlaywrightCode input net = Except.ok (extractCodeFromMarkdown r))
    ∧ (∀ st m, net (generationPrompt input) = Except.error (st, m) →
        generatePlaywrightCode input net = Except.error (mapApiError st m)) := by
  refine ⟨?_, ?_, ?_⟩
  · rw [generationPrompt, toList_append, toList_append]
    exact listContains_append _ _ _
  · intro r hr
    simp [generatePlaywrightCode, hr]
  · intro st m hm
    simp [generatePlaywrightCode, hm]

/-- Witness for C9 at a concrete input and provider stub. -/
theorem C9_no_size_ceiling_inst :
    generatePlaywrightCode "login test" (fun _ => Except.ok "code") = Except.ok "code" := by
  have h := (C9_no_size_ceiling "login test" (fun _ => Except.ok "code")).2.1 "code" rfl
  rw [h]
  rfl

/-- Counterexample to claim C9 as stated: a one-hundred-thousand-character
input, larger than any plausible configured ceiling, is embedded verbatim
in the prompt and the provider is invoked, its reply becoming the result;
no InputTooLarge failure exists anywhere on the path. -/
theorem C9_large_input_reaches_provider :
    generatePlaywrightCode (String.mk (List.replicate 100000 'a'))
        (fun _ => Except.ok "reply-text")
      = Except.ok "reply-text"
    ∧ listContains (String.mk (List.replicate 100000 'a')).toList
        (generationPrompt (String.mk (List.replicate 100000 'a'))).toList = true := by
  constructor
  · rfl
  · rw [generationPrompt, toList_append, toList_append]
    exact listContains_append _ _ _

/-- Claim C10, amended (corrected): backup defaults to true when no backup
toggle occurs after the first two vector elements, and when no occurrence
of a toggle can be consumed as the value of a preceding test or log option,
the last toggle occurrence determines the result; a toggle that is consumed
as an option value is ignored, see the counterexample theorem. -/
theorem C10_backup_flag_amended :
    (∀ argv : List String, "--backup" ∉ argv.drop 2 → "--no-backup" ∉ argv.drop 2 →
      (parseArgs argv).backup = true)
    ∧ (∀ argv : List String, "--test" ∉ argv.drop 2 → "--log" ∉ argv.drop 2 →
      (parseArgs argv).backup = claimBackupSpec argv) := by
  constructor
  · intro argv hb hnb
    exact parseArgsAux_backup_stable (argv.drop 2).length (argv.drop 2)
      (Nat.le_refl _) initialArgs hb hnb
  · intro argv ht hl
    exact parseArgsAux_backup_last (argv.drop 2) initialArgs ht hl

/-- Witness for C10: default true without toggles, and last toggle wins. -/
theorem C10_backup_flag_inst :
    (parseArgs ["node", "debug_test.js", "--dry-run"]).backup = true
    ∧ (parseArgs ["node", "debug_test.js", "--no-backup", "--backup"]).backup = true
    ∧ (parseArgs ["node", "debug_test.js", "--backup", "--no-backup"]).backup = false := by
  refine ⟨?_, ?_, ?_⟩
  · exact C10_backup_flag_amended.1 ["node", "debug_test.js", "--dry-run"]
      (by decide) (by decide)
  · have h := C10_backup_flag_amended.2 ["node", "debug_test.js", "--no-backup", "--backup"]
      (by decide) (by decide)
    rw [h]
    decide
  · have h := C10_backup_flag_amended.2 ["node", "debug_test.js", "--backup", "--no-backup"]
      (by decide) (by decide)
    rw [h]
    decide

/-- Counterexample to claim C10 as stated: the last occurrence of a backup
toggle in the vector is the no-backup token, but it is consumed as the
value of the preceding test option, so parseArgs still returns backup true
while the claim demands false. -/
theorem C10_flag_consumed_by_test :
    (parseArgs ["node", "debug_test.js", "--test", "--no-backup"]).backup = true
    ∧ lastBackupFlag (["node", "debug_test.js", "--test", "--no-backup"].drop 2) = some false
    ∧ (parseArgs ["node", "debug_test.js", "--test", "--no-backup"]).testPath
        = some "--no-backup" :=
  ⟨by decide, by decide, by decide⟩
